import Mathlib

/-!
Verification of the IoT daily-aggregation transform of this repository.

The repository reproduces one aggregation contract in several renderings:

* `src/AirflowFix/airflow/dags/elt_iot_pipeline.py`, task `transform_in_sql`:
  the incremental SQL transform (window filter, join, group, round, 3-day
  moving average, weather left join, quality flag), task `validate_data`
  (post-aggregation checks) and the callable `check_for_anomalies` that
  decides the alert branch.
* `src/airflow/dags/etl_iot_pipeline.py`, function `transform_data`: the
  pandas rendering (join, group, aggregate, `.round(2)`).
* `src/airflow/dags/elt_iot_pipeline.py`, task `transform_in_sql`: the
  full-refresh SQL rendering (join, group, aggregate, `ROUND(_, 2)`).

Modelling conventions (shallow embedding):

* SQL `TIMESTAMP` values are instants modelled as seconds (`Nat`); the SQL
  `DATE(timestamp)` truncation is division by 86400, so a calendar date is a
  day number (`Nat`).
* SQL `DECIMAL`/`NUMERIC` values and pandas floats are modelled as exact
  rationals (`ℚ`).  Postgres `ROUND(x, 2)` on `numeric` rounds half away
  from zero; pandas `.round(2)` rounds half to even.
* The sensor directory has `sensor_id` as unique key (spec data model), so
  the SQL inner join / pandas inner merge is a lookup of the first directory
  entry for the id.  The weather reference is keyed by (location, date), so
  the SQL left join is a lookup of the first matching observation.
* Readings are well formed: `temperature` is never null (spec data model),
  which makes the `WHERE r.temperature IS NOT NULL` filter of the
  full-refresh SQL the identity.
* Output row order: both C8 transforms emit rows ordered the same way
  (pandas sorted group keys, SQL `ORDER BY location, date`); the embedding
  uses the common first-occurrence order of the distinct group keys, which
  identifies the two orders without needing an order on location strings.
* `created_at = CURRENT_TIMESTAMP` is an external clock and is not part of
  the modelled rows.
-/

/-- A row of `raw_readings` (CSV columns `reading_id, sensor_id, temperature,
timestamp`). -/
structure Reading where
  reading_id : Nat
  sensor_id : Nat
  temperature : ℚ
  timestamp : Nat
deriving DecidableEq

/-- A row of `raw_sensors` (CSV columns `sensor_id, location`); the sensor
directory, keyed by `sensor_id`. -/
structure Sensor where
  sensor_id : Nat
  location : String
deriving DecidableEq

/-- A row of `raw_weather` (CSV columns `date, location, condition,
avg_temp`); the weather reference, keyed by (location, date). -/
structure Weather where
  date : Nat
  location : String
  condition : String
  avg_temp : ℚ
deriving DecidableEq

/-- One row of the join of filtered readings with the sensor directory:
`s.location, DATE(r.timestamp), r.temperature`. -/
structure JoinedRow where
  location : String
  date : Nat
  temperature : ℚ
deriving DecidableEq

/-- A row of `daily_sensor_summary_elt` as produced by the incremental
transform of `src/AirflowFix/airflow/dags/elt_iot_pipeline.py`
(`created_at` omitted, see module docstring). -/
structure SummaryRow where
  location : String
  date : Nat
  avg_temp : ℚ
  min_temp : ℚ
  max_temp : ℚ
  moving_avg_3day : ℚ
  reading_count : Nat
  weather_condition : Option String
  weather_avg_temp : Option ℚ
  quality_flag : String
deriving DecidableEq

/-- A row of `daily_sensor_summary_etl` / full-refresh
`daily_sensor_summary_elt` of `src/airflow/dags` (`created_at` omitted). -/
structure EtlRow where
  location : String
  date : Nat
  avg_temp : ℚ
  min_temp : ℚ
  max_temp : ℚ
  reading_count : Nat
deriving DecidableEq

/-- The SQL `DATE(timestamp)` truncation: instants are seconds, dates are
day numbers. -/
def dateOf (ts : Nat) : Nat := ts / 86400

/-- Rounding to integer, half away from zero: the behaviour of Postgres
`ROUND(x)` on `numeric` arguments. -/
def roundAway (x : ℚ) : ℤ :=
  if 0 ≤ x then ⌊x + 1 / 2⌋ else -⌊-x + 1 / 2⌋

/-- Postgres `ROUND(x, 2)` on `numeric`: round half away from zero at two
decimal places. -/
def round2 (q : ℚ) : ℚ := (roundAway (q * 100) : ℚ) / 100

/-- Rounding to integer, half to even: the behaviour of IEEE-754/ numpy
`rint`, which `pandas.Series.round` applies after scaling. -/
def roundEven (x : ℚ) : ℤ :=
  if x - ⌊x⌋ < 1 / 2 then ⌊x⌋
  else if 1 / 2 < x - ⌊x⌋ then ⌊x⌋ + 1
  else if ⌊x⌋ % 2 = 0 then ⌊x⌋ else ⌊x⌋ + 1

/-- pandas `.round(2)`: round half to even at two decimal places. -/
def round2even (q : ℚ) : ℚ := (roundEven (q * 100) : ℚ) / 100

/-- A value is a rounding tie at two decimals when scaling by 100 lands
exactly halfway between consecutive integers; only there can the two
rounding modes disagree. -/
def isTie (q : ℚ) : Prop := q * 100 - ⌊q * 100⌋ = 1 / 2

/-- Sum of a list of rationals (SQL `SUM`, the numerator of `AVG`). -/
def aggSum (l : List ℚ) : ℚ := l.sum

/-- SQL `AVG` / pandas `mean`: sum divided by count. -/
def aggMean (l : List ℚ) : ℚ := aggSum l / (l.length : ℚ)

/-- SQL `MIN` / pandas `min`: head of the ascending sort (0 on the empty
list, which no emitted group has). -/
def aggMin (l : List ℚ) : ℚ := (List.insertionSort (· ≤ ·) l).headD 0

/-- The reversed order on ℚ, used to compute `MAX` as the head of a sort. -/
def geQ : ℚ → ℚ → Prop := fun a b => b ≤ a

instance : DecidableRel geQ := fun a b => inferInstanceAs (Decidable (b ≤ a))

instance : IsTotal ℚ geQ := ⟨fun a b => (le_total a b).symm⟩

instance : IsTrans ℚ geQ := ⟨fun _ _ _ h h2 => le_trans h2 h⟩

instance : IsAntisymm ℚ geQ := ⟨fun _ _ h h2 => le_antisymm h2 h⟩

/-- SQL `MAX` / pandas `max`: head of the descending sort (0 on the empty
list, which no emitted group has). -/
def aggMax (l : List ℚ) : ℚ := (List.insertionSort geQ l).headD 0

/-- Resolution of a `sensor_id` in the sensor directory (the inner join /
inner merge on `sensor_id`, the directory key being unique). -/
def lookupLocation (sensors : List Sensor) (sid : Nat) : Option String :=
  (sensors.find? (fun s => s.sensor_id == sid)).map (fun s => s.location)

/-- The execution-window filter of the incremental transform:
`timestamp >= data_interval_start AND timestamp < data_interval_end`. -/
def filterWindow (wstart wstop : Nat) (rs : List Reading) : List Reading :=
  rs.filter (fun r => decide (wstart ≤ r.timestamp) && decide (r.timestamp < wstop))

/-- The join of readings with the sensor directory; readings whose
`sensor_id` has no directory entry are dropped. -/
def joinSensors (sensors : List Sensor) (rs : List Reading) : List JoinedRow :=
  rs.filterMap (fun r =>
    (lookupLocation sensors r.sensor_id).map (fun loc =>
      { location := loc, date := dateOf r.timestamp, temperature := r.temperature }))

/-- The distinct `GROUP BY (location, DATE(timestamp))` keys of the joined
rows. -/
def statKeys (j : List JoinedRow) : List (String × Nat) :=
  ((j.map (fun x => (x.location, x.date))).dedup)

/-- The joined rows of one (location, date) group. -/
def groupOf (j : List JoinedRow) (k : String × Nat) : List JoinedRow :=
  j.filter (fun x => x.location == k.1 && x.date == k.2)

/-- The temperatures of one (location, date) group. -/
def tempsOf (j : List JoinedRow) (k : String × Nat) : List ℚ :=
  (groupOf j k).map (fun x => x.temperature)

/-- The unrounded per-group mean `AVG(r.temperature)` of the `daily_stats`
CTE (this is what the SQL window function averages). -/
def exactAvg (j : List JoinedRow) (k : String × Nat) : ℚ := aggMean (tempsOf j k)

/-- Order on group keys by date, used by `ORDER BY d.date` inside the
window function (all compared keys share one location). -/
def dateLE : (String × Nat) → (String × Nat) → Prop := fun a b => a.2 ≤ b.2

instance : DecidableRel dateLE := fun a b => inferInstanceAs (Decidable (a.2 ≤ b.2))

instance : IsTotal (String × Nat) dateLE := ⟨fun a b => Nat.le_total a.2 b.2⟩

instance : IsTrans (String × Nat) dateLE := ⟨fun _ _ _ h h2 => Nat.le_trans h h2⟩

/-- Strict version of `dateLE`; antisymmetric outright, used to identify
sorted key lists. -/
def dateLT : (String × Nat) → (String × Nat) → Prop := fun a b => a.2 < b.2

instance : IsAntisymm (String × Nat) dateLT :=
  ⟨fun _ _ h h2 => absurd (Nat.lt_trans h h2) (Nat.lt_irrefl _)⟩

/-- The window frame `PARTITION BY d.location ORDER BY d.date ROWS BETWEEN
2 PRECEDING AND CURRENT ROW` at key `k`: among the group keys, those of the
same location with date up to `k`, in date order, of which the last three
(the current key and up to two predecessors). -/
def windowKeys (keys : List (String × Nat)) (k : String × Nat) : List (String × Nat) :=
  ((List.insertionSort dateLE
      (keys.filter (fun k2 => k2.1 == k.1 && decide (k2.2 ≤ k.2)))).reverse).take 3

namespace AirflowFix

/-- One output row of the incremental transform at group key `k`: the
rounded aggregates of the group, the rounded window average of the
unrounded `daily_stats` means, the weather left join and the quality flag
(`src/AirflowFix/airflow/dags/elt_iot_pipeline.py`, task
`transform_in_sql`). -/
def summaryRowOf (w : List Weather) (j : List JoinedRow) (keys : List (String × Nat))
    (k : String × Nat) : SummaryRow :=
  { location := k.1
    date := k.2
    avg_temp := round2 (aggMean (tempsOf j k))
    min_temp := round2 (aggMin (tempsOf j k))
    max_temp := round2 (aggMax (tempsOf j k))
    moving_avg_3day := round2 (aggMean ((windowKeys keys k).map (exactAvg j)))
    reading_count := (tempsOf j k).length
    weather_condition := (w.find? (fun x => x.location == k.1 && x.date == k.2)).map
      (fun x => x.condition)
    weather_avg_temp := (w.find? (fun x => x.location == k.1 && x.date == k.2)).map
      (fun x => x.avg_temp)
    quality_flag := if 25 < round2 (aggMax (tempsOf j k)) then "ABNORMAL" else "NORMAL" }

/-- The rows the incremental `INSERT INTO daily_sensor_summary_elt ...`
emits from the joined rows: one summary row per distinct group key. -/
def dailyRows (w : List Weather) (j : List JoinedRow) : List SummaryRow :=
  (statKeys j).map (summaryRowOf w j (statKeys j))

/-- The incremental SQL transform (`src/AirflowFix/airflow/dags/
elt_iot_pipeline.py`, task `transform_in_sql`): filter the readings to the
half-open execution window, inner-join the sensor directory, group by
(location, date) and emit one summary row per group. -/
def transform_in_sql (sensors : List Sensor) (w : List Weather)
    (wstart wstop : Nat) (rs : List Reading) : List SummaryRow :=
  dailyRows w (joinSensors sensors (filterWindow wstart wstop rs))

/-- The validation task (`validate_data`): over the summary table contents,
raise when the table is empty, raise when some row has a null
`weather_condition`, otherwise leave the table as it is. -/
def validate_data (table : List SummaryRow) : Except String (List SummaryRow) :=
  if table.length = 0 then
    Except.error "Validasi Gagal: Tabel summary kosong!"
  else if 0 < (table.filter (fun r => r.weather_condition.isNone)).length then
    Except.error "Validasi Gagal: Ditemukan baris tanpa data cuaca!"
  else
    Except.ok table

/-- One run of the incremental pipeline after loading: the transform task
appends its rows to the partitioned summary table (`INSERT INTO`), then the
validation task checks the table. -/
def run_transform_validate (prior : List SummaryRow) (sensors : List Sensor)
    (w : List Weather) (wstart wstop : Nat) (rs : List Reading) :
    Except String (List SummaryRow) :=
  validate_data (prior ++ transform_in_sql sensors w wstart wstop rs)

/-- The date literal the anomaly query sends to Postgres.  The query string
is built inside the `python_callable` of `BranchPythonOperator`, where
Jinja templates are never rendered, so the literal is the raw template
text, not the run date. -/
def dsTemplateLiteral : String := "\x7b\x7b ds \x7d\x7d"

/-- Decimal digit test on a character. -/
def isDigitChar (c : Char) : Bool := 48 ≤ c.toNat && c.toNat ≤ 57

/-- Digits-to-number accumulator for `parseDateLiteral`. -/
def parseDigitsAux : List Char → Nat → Option Nat
  | [], acc => some acc
  | c :: cs, acc =>
      if isDigitChar c then parseDigitsAux cs (acc * 10 + (c.toNat - 48)) else none

/-- Postgres coercion of a quoted literal to `DATE` in `date = '...'`:
dates being day numbers in this embedding, a literal is accepted exactly
when it is a decimal numeral; anything else raises `invalid input syntax
for type date`. -/
def parseDateLiteral (s : String) : Option Nat :=
  match s.data with
  | [] => none
  | c :: cs => parseDigitsAux (c :: cs) 0

/-- The anomaly query of `check_for_anomalies`: `SELECT COUNT(*) FROM
daily_sensor_summary_elt WHERE quality_flag = 'ABNORMAL' AND date = '...'`
with the given date literal; the whole query errors when the literal is not
a date. -/
def anomaly_query (table : List SummaryRow) (dateLiteral : String) : Except String Nat :=
  match parseDateLiteral dateLiteral with
  | none => Except.error "invalid input syntax for type date"
  | some d =>
      Except.ok ((table.filter
        (fun r => r.quality_flag == "ABNORMAL" && r.date == d)).length)

/-- The branch callable `check_for_anomalies`: run the anomaly query with
the (unrendered) `dsTemplateLiteral` and pick the alert task on a positive
count, the no-op task otherwise. -/
def check_for_anomalies (table : List SummaryRow) : Except String String :=
  match anomaly_query table dsTemplateLiteral with
  | Except.error e => Except.error e
  | Except.ok n => Except.ok (if 0 < n then "send_alert_task" else "no_alert_task")

end AirflowFix

namespace AirflowEtl

/-- One output row of the pandas transform at group key `k`
(`src/airflow/dags/etl_iot_pipeline.py`, function `transform_data`): the
per-group `mean`, `min`, `max`, `count` of temperature with the three
temperature aggregates rounded by pandas `.round(2)`. -/
def etlRowOf (j : List JoinedRow) (k : String × Nat) : EtlRow :=
  { location := k.1
    date := k.2
    avg_temp := round2even (aggMean (tempsOf j k))
    min_temp := round2even (aggMin (tempsOf j k))
    max_temp := round2even (aggMax (tempsOf j k))
    reading_count := (tempsOf j k).length }

/-- The pandas transform `transform_data`: inner-merge readings with
sensors on `sensor_id`, derive the date column, group by (location, date)
and aggregate, then round the three temperature columns. -/
def transform_data (sensors : List Sensor) (rs : List Reading) : List EtlRow :=
  (statKeys (joinSensors sensors rs)).map (etlRowOf (joinSensors sensors rs))

end AirflowEtl

namespace AirflowElt

/-- One output row of the full-refresh SQL transform at group key `k`
(`src/airflow/dags/elt_iot_pipeline.py`, task `transform_in_sql`): the
per-group `AVG`, `MIN`, `MAX`, `COUNT` with the three temperature
aggregates rounded by `ROUND(_, 2)`. -/
def sqlRowOf (j : List JoinedRow) (k : String × Nat) : EtlRow :=
  { location := k.1
    date := k.2
    avg_temp := round2 (aggMean (tempsOf j k))
    min_temp := round2 (aggMin (tempsOf j k))
    max_temp := round2 (aggMax (tempsOf j k))
    reading_count := (tempsOf j k).length }

/-- The full-refresh SQL transform: inner-join readings with sensors,
group by (location, DATE(timestamp)) and aggregate, then round.  Readings
being well formed, the `WHERE r.temperature IS NOT NULL` filter is the
identity and is not repeated here. -/
def transform_in_sql (sensors : List Sensor) (rs : List Reading) : List EtlRow :=
  (statKeys (joinSensors sensors rs)).map (sqlRowOf (joinSensors sensors rs))

end AirflowElt

/-! Helper lemmas about the grouping pipeline. -/

lemma statKeys_nodup (j : List JoinedRow) : (statKeys j).Nodup :=
  List.nodup_dedup _

lemma mem_statKeys {j : List JoinedRow} {k : String × Nat} :
    k ∈ statKeys j ↔ k ∈ j.map (fun x => (x.location, x.date)) :=
  List.mem_dedup

lemma mem_groupOf {j : List JoinedRow} {k : String × Nat} {x : JoinedRow} :
    x ∈ groupOf j k ↔ x ∈ j ∧ x.location = k.1 ∧ x.date = k.2 := by
  simp [groupOf, List.mem_filter, and_assoc]

lemma tempsOf_ne_nil {j : List JoinedRow} {k : String × Nat} (hk : k ∈ statKeys j) :
    tempsOf j k ≠ [] := by
  rw [mem_statKeys, List.mem_map] at hk
  obtain ⟨x, hx, hkey⟩ := hk
  have hxg : x ∈ groupOf j k :=
    mem_groupOf.mpr ⟨hx, by rw [← hkey], by rw [← hkey]⟩
  have hmem : x.temperature ∈ tempsOf j k := List.mem_map_of_mem _ hxg
  intro hnil
  rw [hnil] at hmem
  exact List.not_mem_nil _ hmem

lemma insertionSort_le_eq {l₁ l₂ : List ℚ} (h : l₁.Perm l₂) :
    List.insertionSort (· ≤ ·) l₁ = List.insertionSort (· ≤ ·) l₂ :=
  List.eq_of_perm_of_sorted
    (((List.perm_insertionSort _ l₁).trans h).trans (List.perm_insertionSort _ l₂).symm)
    (List.sorted_insertionSort _ l₁) (List.sorted_insertionSort _ l₂)

lemma insertionSort_ge_eq {l₁ l₂ : List ℚ} (h : l₁.Perm l₂) :
    List.insertionSort geQ l₁ = List.insertionSort geQ l₂ :=
  List.eq_of_perm_of_sorted
    (((List.perm_insertionSort _ l₁).trans h).trans (List.perm_insertionSort _ l₂).symm)
    (List.sorted_insertionSort _ l₁) (List.sorted_insertionSort _ l₂)

lemma aggSum_perm {l₁ l₂ : List ℚ} (h : l₁.Perm l₂) : aggSum l₁ = aggSum l₂ :=
  h.sum_eq

lemma aggMean_perm {l₁ l₂ : List ℚ} (h : l₁.Perm l₂) : aggMean l₁ = aggMean l₂ := by
  unfold aggMean aggSum
  rw [h.sum_eq, h.length_eq]

lemma aggMin_perm {l₁ l₂ : List ℚ} (h : l₁.Perm l₂) : aggMin l₁ = aggMin l₂ := by
  unfold aggMin
  rw [insertionSort_le_eq h]

lemma aggMax_perm {l₁ l₂ : List ℚ} (h : l₁.Perm l₂) : aggMax l₁ = aggMax l₂ := by
  unfold aggMax
  rw [insertionSort_ge_eq h]

lemma aggMin_mem {l : List ℚ} (h : l ≠ []) : aggMin l ∈ l := by
  have hp := List.perm_insertionSort (fun a b : ℚ => a ≤ b) l
  have hne : List.insertionSort (fun a b : ℚ => a ≤ b) l ≠ [] := by
    intro hs
    have hlen := hp.length_eq
    rw [hs] at hlen
    exact h (List.length_eq_zero.mp hlen.symm)
  have heq : aggMin l = (List.insertionSort (fun a b : ℚ => a ≤ b) l).head hne := by
    rw [aggMin, List.headD_eq_head?, List.head?_eq_head hne]
    rfl
  rw [heq]
  exact hp.mem_iff.mp (List.head_mem hne)

lemma aggMin_le {l : List ℚ} {x : ℚ} (hx : x ∈ l) : aggMin l ≤ x := by
  have hp := List.perm_insertionSort (fun a b : ℚ => a ≤ b) l
  have hs := List.sorted_insertionSort (fun a b : ℚ => a ≤ b) l
  have hx2 : x ∈ List.insertionSort (fun a b : ℚ => a ≤ b) l := hp.mem_iff.mpr hx
  cases hsort : List.insertionSort (fun a b : ℚ => a ≤ b) l with
  | nil =>
      rw [hsort] at hx2
      exact absurd hx2 (List.not_mem_nil x)
  | cons a t =>
      rw [hsort] at hx2 hs
      rw [aggMin, hsort]
      simp only [List.headD_cons]
      rcases List.mem_cons.mp hx2 with h1 | h2
      · exact le_of_eq h1.symm
      · exact (List.sorted_cons.mp hs).1 x h2

lemma aggMax_mem {l : List ℚ} (h : l ≠ []) : aggMax l ∈ l := by
  have hp := List.perm_insertionSort geQ l
  have hne : List.insertionSort geQ l ≠ [] := by
    intro hs
    have hlen := hp.length_eq
    rw [hs] at hlen
    exact h (List.length_eq_zero.mp hlen.symm)
  have heq : aggMax l = (List.insertionSort geQ l).head hne := by
    rw [aggMax, List.headD_eq_head?, List.head?_eq_head hne]
    rfl
  rw [heq]
  exact hp.mem_iff.mp (List.head_mem hne)

lemma le_aggMax {l : List ℚ} {x : ℚ} (hx : x ∈ l) : x ≤ aggMax l := by
  have hp := List.perm_insertionSort geQ l
  have hs := List.sorted_insertionSort geQ l
  have hx2 : x ∈ List.insertionSort geQ l := hp.mem_iff.mpr hx
  cases hsort : List.insertionSort geQ l with
  | nil =>
      rw [hsort] at hx2
      exact absurd hx2 (List.not_mem_nil x)
  | cons a t =>
      rw [hsort] at hx2 hs
      rw [aggMax, hsort]
      simp only [List.headD_cons]
      rcases List.mem_cons.mp hx2 with h1 | h2
      · exact le_of_eq h1
      · exact (List.sorted_cons.mp hs).1 x h2

lemma filterWindow_perm {a b : Nat} {rs₁ rs₂ : List Reading} (h : rs₁.Perm rs₂) :
    (filterWindow a b rs₁).Perm (filterWindow a b rs₂) :=
  h.filter _

lemma joinSensors_perm {s : List Sensor} {rs₁ rs₂ : List Reading} (h : rs₁.Perm rs₂) :
    (joinSensors s rs₁).Perm (joinSensors s rs₂) :=
  h.filterMap _

lemma statKeys_perm {j₁ j₂ : List JoinedRow} (h : j₁.Perm j₂) :
    (statKeys j₁).Perm (statKeys j₂) :=
  (h.map _).dedup

lemma tempsOf_perm {j₁ j₂ : List JoinedRow} {k : String × Nat} (h : j₁.Perm j₂) :
    (tempsOf j₁ k).Perm (tempsOf j₂ k) :=
  (h.filter _).map _

lemma exactAvg_perm {j₁ j₂ : List JoinedRow} {k : String × Nat} (h : j₁.Perm j₂) :
    exactAvg j₁ k = exactAvg j₂ k :=
  aggMean_perm (tempsOf_perm h)

lemma sorted_dateLT_insertionSort {loc : String} {l : List (String × Nat)}
    (hloc : ∀ x ∈ l, x.1 = loc) (hn : l.Nodup) :
    List.Sorted dateLT (List.insertionSort dateLE l) := by
  have hs := List.sorted_insertionSort dateLE l
  have hp := List.perm_insertionSort dateLE l
  have hn2 : (List.insertionSort dateLE l).Nodup := hp.symm.nodup hn
  have hloc2 : ∀ x ∈ List.insertionSort dateLE l, x.1 = loc := fun x hx =>
    hloc x (hp.mem_iff.mp hx)
  have hne : (List.insertionSort dateLE l).Pairwise (fun a b => a.2 ≠ b.2) := by
    refine List.Pairwise.imp_of_mem ?_ hn2
    intro a b ha hb hab h2
    exact hab (Prod.ext (by rw [hloc2 a ha, hloc2 b hb]) h2)
  have hand := List.Pairwise.and hs hne
  exact hand.imp (fun h => Nat.lt_of_le_of_ne h.1 h.2)

lemma windowKeys_eq {keys₁ keys₂ : List (String × Nat)} (h : keys₁.Perm keys₂)
    (hn : keys₁.Nodup) (k : String × Nat) :
    windowKeys keys₁ k = windowKeys keys₂ k := by
  have hf : (keys₁.filter (fun k2 => k2.1 == k.1 && decide (k2.2 ≤ k.2))).Perm
      (keys₂.filter (fun k2 => k2.1 == k.1 && decide (k2.2 ≤ k.2))) := h.filter _
  have hloc1 : ∀ x ∈ keys₁.filter (fun k2 => k2.1 == k.1 && decide (k2.2 ≤ k.2)), x.1 = k.1 := by
    intro x hx
    have := (List.mem_filter.mp hx).2
    simp only [Bool.and_eq_true, beq_iff_eq] at this
    exact this.1
  have hloc2 : ∀ x ∈ keys₂.filter (fun k2 => k2.1 == k.1 && decide (k2.2 ≤ k.2)), x.1 = k.1 := by
    intro x hx
    have := (List.mem_filter.mp hx).2
    simp only [Bool.and_eq_true, beq_iff_eq] at this
    exact this.1
  have hsorteq : List.insertionSort dateLE (keys₁.filter (fun k2 => k2.1 == k.1 && decide (k2.2 ≤ k.2)))
      = List.insertionSort dateLE (keys₂.filter (fun k2 => k2.1 == k.1 && decide (k2.2 ≤ k.2))) := by
    refine List.eq_of_perm_of_sorted (r := dateLT)
      (((List.perm_insertionSort _ _).trans hf).trans (List.perm_insertionSort _ _).symm)
      (sorted_dateLT_insertionSort hloc1 (hn.filter _))
      (sorted_dateLT_insertionSort hloc2 ((h.nodup hn).filter _))
  unfold windowKeys
  rw [hsorteq]

lemma dailyRows_map_key (w : List Weather) (j : List JoinedRow) :
    (AirflowFix.dailyRows w j).map (fun r => (r.location, r.date)) = statKeys j := by
  unfold AirflowFix.dailyRows
  rw [List.map_map]
  exact (List.map_congr_left fun k _ => rfl).trans (List.map_id _)

lemma transform_data_map_key (s : List Sensor) (rs : List Reading) :
    (AirflowEtl.transform_data s rs).map (fun r => (r.location, r.date))
      = statKeys (joinSensors s rs) := by
  unfold AirflowEtl.transform_data
  rw [List.map_map]
  exact (List.map_congr_left fun k _ => rfl).trans (List.map_id _)

lemma elt_transform_map_key (s : List Sensor) (rs : List Reading) :
    (AirflowElt.transform_in_sql s rs).map (fun r => (r.location, r.date))
      = statKeys (joinSensors s rs) := by
  unfold AirflowElt.transform_in_sql
  rw [List.map_map]
  exact (List.map_congr_left fun k _ => rfl).trans (List.map_id _)

lemma mem_dailyRows {w : List Weather} {j : List JoinedRow} {row : SummaryRow} :
    row ∈ AirflowFix.dailyRows w j
      ↔ ∃ k ∈ statKeys j, row = AirflowFix.summaryRowOf w j (statKeys j) k := by
  unfold AirflowFix.dailyRows
  simp [List.mem_map, eq_comm]

lemma mem_transform_data {s : List Sensor} {rs : List Reading} {row : EtlRow} :
    row ∈ AirflowEtl.transform_data s rs
      ↔ ∃ k ∈ statKeys (joinSensors s rs),
          row = AirflowEtl.etlRowOf (joinSensors s rs) k := by
  unfold AirflowEtl.transform_data
  simp [List.mem_map, eq_comm]

lemma mem_elt_transform {s : List Sensor} {rs : List Reading} {row : EtlRow} :
    row ∈ AirflowElt.transform_in_sql s rs
      ↔ ∃ k ∈ statKeys (joinSensors s rs),
          row = AirflowElt.sqlRowOf (joinSensors s rs) k := by
  unfold AirflowElt.transform_in_sql
  simp [List.mem_map, eq_comm]

lemma summaryRowOf_congr {w : List Weather} {j₁ j₂ : List JoinedRow}
    {keys₁ keys₂ : List (String × Nat)} (hj : j₁.Perm j₂) (hk : keys₁.Perm keys₂)
    (hn : keys₁.Nodup) (k : String × Nat) :
    AirflowFix.summaryRowOf w j₁ keys₁ k = AirflowFix.summaryRowOf w j₂ keys₂ k := by
  have ht : (tempsOf j₁ k).Perm (tempsOf j₂ k) := tempsOf_perm hj
  unfold AirflowFix.summaryRowOf
  rw [aggMean_perm ht, aggMin_perm ht, aggMax_perm ht, ht.length_eq, windowKeys_eq hk hn k,
    List.map_congr_left (fun k2 _ => exactAvg_perm (k := k2) hj)]

lemma etlRowOf_congr {j₁ j₂ : List JoinedRow} (hj : j₁.Perm j₂) (k : String × Nat) :
    AirflowEtl.etlRowOf j₁ k = AirflowEtl.etlRowOf j₂ k := by
  have ht : (tempsOf j₁ k).Perm (tempsOf j₂ k) := tempsOf_perm hj
  unfold AirflowEtl.etlRowOf
  rw [aggMean_perm ht, aggMin_perm ht, aggMax_perm ht, ht.length_eq]

lemma joinSensors_drop {s : List Sensor} {r : Reading}
    (h : lookupLocation s r.sensor_id = none) (rs₁ rs₂ : List Reading) :
    joinSensors s (rs₁ ++ r :: rs₂) = joinSensors s (rs₁ ++ rs₂) := by
  unfold joinSensors
  rw [List.filterMap_append, List.filterMap_append, List.filterMap_cons]
  rw [h]
  rfl

lemma filterWindow_append (a b : Nat) (rs₁ rs₂ : List Reading) :
    filterWindow a b (rs₁ ++ rs₂) = filterWindow a b rs₁ ++ filterWindow a b rs₂ :=
  List.filter_append _ _

lemma joinSensors_filterWindow_drop {s : List Sensor} {r : Reading} {a b : Nat}
    (h : lookupLocation s r.sensor_id = none) (rs₁ rs₂ : List Reading) :
    joinSensors s (filterWindow a b (rs₁ ++ r :: rs₂))
      = joinSensors s (filterWindow a b (rs₁ ++ rs₂)) := by
  rw [filterWindow_append, filterWindow_append]
  rw [show filterWindow a b (r :: rs₂)
      = (if decide (a ≤ r.timestamp) && decide (r.timestamp < b) then [r] else [])
        ++ filterWindow a b rs₂ by
    unfold filterWindow
    rw [List.filter_cons]
    split <;> simp]
  by_cases hcond : (decide (a ≤ r.timestamp) && decide (r.timestamp < b)) = true
  · rw [if_pos hcond]
    rw [show filterWindow a b rs₁ ++ ([r] ++ filterWindow a b rs₂)
        = filterWindow a b rs₁ ++ r :: filterWindow a b rs₂ by simp]
    exact joinSensors_drop h _ _
  · rw [if_neg hcond]
    simp

lemma validate_error_iff (table : List SummaryRow) :
    (∃ e, AirflowFix.validate_data table = Except.error e)
      ↔ (table = [] ∨ ∃ row ∈ table, row.weather_condition = none) := by
  unfold AirflowFix.validate_data
  split_ifs with h1 h2
  · simp only [List.length_eq_zero] at h1
    simp [h1]
  · have hne : table.filter (fun r => r.weather_condition.isNone) ≠ [] := by
      intro hnil
      rw [hnil] at h2
      exact absurd h2 (by simp)
    obtain ⟨x, hx⟩ := List.exists_mem_of_ne_nil _ hne
    have := List.mem_filter.mp hx
    refine iff_of_true ⟨_, rfl⟩ (Or.inr ⟨x, this.1, Option.isNone_iff_eq_none.mp this.2⟩)
  · constructor
    · rintro ⟨e, he⟩
      exact absurd he (by simp)
    · rintro (hnil | ⟨row, hrow, hnone⟩)
      · exact absurd (by rw [hnil]; rfl : table.length = 0) h1
      · exfalso
        apply h2
        rw [List.length_pos]
        intro hnil
        have : row ∈ table.filter (fun r => r.weather_condition.isNone) :=
          List.mem_filter.mpr ⟨hrow, by rw [hnone]; rfl⟩
        rw [hnil] at this
        exact List.not_mem_nil _ this

lemma validate_ok_eq {table t2 : List SummaryRow}
    (h : AirflowFix.validate_data table = Except.ok t2) : t2 = table := by
  unfold AirflowFix.validate_data at h
  split_ifs at h
  exact (Except.ok.inj h).symm

lemma roundAway_eq_roundEven {x : ℚ} (h : x - ⌊x⌋ ≠ 1 / 2) : roundAway x = roundEven x := by
  have h0 : (⌊x⌋ : ℚ) ≤ x := Int.floor_le x
  have h1 : x < ⌊x⌋ + 1 := Int.lt_floor_add_one x
  unfold roundAway roundEven
  rcases lt_or_gt_of_ne h with hlt | hgt
  · rw [if_pos hlt]
    by_cases hx : 0 ≤ x
    · rw [if_pos hx, Int.floor_eq_iff]
      constructor
      · linarith
      · linarith
    · rw [if_neg hx]
      have hfl : ⌊-x + 1 / 2⌋ = -⌊x⌋ := by
        rw [Int.floor_eq_iff]
        constructor
        · push_cast
          linarith
        · push_cast
          linarith
      rw [hfl, neg_neg]
  · rw [if_neg (not_lt.mpr (le_of_lt hgt)), if_pos hgt]
    by_cases hx : 0 ≤ x
    · rw [if_pos hx, Int.floor_eq_iff]
      constructor
      · push_cast
        linarith
      · push_cast
        linarith
    · rw [if_neg hx]
      have hfl : ⌊-x + 1 / 2⌋ = -(⌊x⌋ + 1) := by
        rw [Int.floor_eq_iff]
        constructor
        · push_cast
          linarith
        · push_cast
          linarith
      rw [hfl, neg_neg]

lemma round2_eq_round2even {q : ℚ} (h : ¬ isTie q) : round2 q = round2even q := by
  unfold isTie at h
  unfold round2 round2even
  rw [roundAway_eq_roundEven h]

/-! Claim theorems. -/

/-- Claim C1: for every run, the incremental transform emits exactly one
summary row per (location, calendar date) group of the readings whose
timestamp lies in the half-open execution window and whose sensor_id
resolves in the sensor directory — the emitted key list is duplicate-free
and covers exactly the group keys of the window-filtered sensor-joined
readings — and every emitted row carries avg_temp = mean, min_temp = min,
max_temp = max and reading_count = count of its group's temperatures, the
three temperature aggregates rounded to two decimal places. -/
theorem C1_one_row_per_group_with_aggregates (s : List Sensor) (w : List Weather)
    (wstart wstop : Nat) (rs : List Reading) (row : SummaryRow)
    (hrow : row ∈ AirflowFix.transform_in_sql s w wstart wstop rs) :
    ((AirflowFix.transform_in_sql s w wstart wstop rs).map
        (fun r2 => (r2.location, r2.date))).Nodup
    ∧ (∀ k : String × Nat,
        k ∈ (AirflowFix.transform_in_sql s w wstart wstop rs).map
            (fun r2 => (r2.location, r2.date))
          ↔ k ∈ (joinSensors s (filterWindow wstart wstop rs)).map
              (fun x => (x.location, x.date)))
    ∧ tempsOf (joinSensors s (filterWindow wstart wstop rs)) (row.location, row.date) ≠ []
    ∧ row.reading_count
        = (tempsOf (joinSensors s (filterWindow wstart wstop rs))
            (row.location, row.date)).length
    ∧ row.avg_temp
        = round2 (aggSum (tempsOf (joinSensors s (filterWindow wstart wstop rs))
              (row.location, row.date))
            / ((tempsOf (joinSensors s (filterWindow wstart wstop rs))
              (row.location, row.date)).length : ℚ))
    ∧ (∃ m, row.min_temp = round2 m
        ∧ m ∈ tempsOf (joinSensors s (filterWindow wstart wstop rs)) (row.location, row.date)
        ∧ ∀ t ∈ tempsOf (joinSensors s (filterWindow wstart wstop rs))
            (row.location, row.date), m ≤ t)
    ∧ (∃ m, row.max_temp = round2 m
        ∧ m ∈ tempsOf (joinSensors s (filterWindow wstart wstop rs)) (row.location, row.date)
        ∧ ∀ t ∈ tempsOf (joinSensors s (filterWindow wstart wstop rs))
            (row.location, row.date), t ≤ m) := by
  obtain ⟨k, hk, hrw⟩ := mem_dailyRows.mp hrow
  subst hrw
  refine ⟨?_, ?_, ?_, rfl, rfl, ?_, ?_⟩
  · rw [show AirflowFix.transform_in_sql s w wstart wstop rs
        = AirflowFix.dailyRows w (joinSensors s (filterWindow wstart wstop rs)) from rfl,
      dailyRows_map_key]
    exact statKeys_nodup _
  · intro k2
    rw [show AirflowFix.transform_in_sql s w wstart wstop rs
        = AirflowFix.dailyRows w (joinSensors s (filterWindow wstart wstop rs)) from rfl,
      dailyRows_map_key]
    exact mem_statKeys
  · exact tempsOf_ne_nil hk
  · exact ⟨aggMin (tempsOf (joinSensors s (filterWindow wstart wstop rs)) k), rfl,
      aggMin_mem (tempsOf_ne_nil hk), fun t ht => aggMin_le ht⟩
  · exact ⟨aggMax (tempsOf (joinSensors s (filterWindow wstart wstop rs)) k), rfl,
      aggMax_mem (tempsOf_ne_nil hk), fun t ht => le_aggMax ht⟩

/-- Claim C2 (amended): each emitted row's moving_avg_3day is the rounded
mean over the window of the location's date-ascending key sequence of the
result set (current row and up to two immediately preceding rows, fewer at
the start, date gaps shifting the window) of the UNROUNDED per-group means
`exactAvg` — the code averages `d.avg_temp` of the `daily_stats` CTE
before any rounding, not the rounded avg_temp column. -/
theorem C2_amended_moving_avg (s : List Sensor) (w : List Weather) (wstart wstop : Nat)
    (rs : List Reading) (row : SummaryRow)
    (hrow : row ∈ AirflowFix.transform_in_sql s w wstart wstop rs) :
    row.moving_avg_3day
      = round2 (aggMean ((windowKeys
          ((AirflowFix.transform_in_sql s w wstart wstop rs).map
            (fun r2 => (r2.location, r2.date)))
          (row.location, row.date)).map
          (exactAvg (joinSensors s (filterWindow wstart wstop rs))))) := by
  obtain ⟨k, hk, hrw⟩ := mem_dailyRows.mp hrow
  subst hrw
  rw [show AirflowFix.transform_in_sql s w wstart wstop rs
      = AirflowFix.dailyRows w (joinSensors s (filterWindow wstart wstop rs)) from rfl,
    dailyRows_map_key]
  rfl

/-- Claim C3: an emitted row is flagged ABNORMAL exactly when its rounded
max_temp is strictly greater than 25.0, and NORMAL otherwise. -/
theorem C3_quality_flag (s : List Sensor) (w : List Weather) (wstart wstop : Nat)
    (rs : List Reading) (row : SummaryRow)
    (hrow : row ∈ AirflowFix.transform_in_sql s w wstart wstop rs) :
    (row.quality_flag = "ABNORMAL" ↔ 25 < row.max_temp)
    ∧ (row.quality_flag = "NORMAL" ↔ ¬ 25 < row.max_temp) := by
  obtain ⟨k, hk, hrw⟩ := mem_dailyRows.mp hrow
  subst hrw
  have hne : ("NORMAL" : String) ≠ "ABNORMAL" := by decide
  by_cases hcase :
      25 < round2 (aggMax (tempsOf (joinSensors s (filterWindow wstart wstop rs)) k))
  · constructor
    · simp [AirflowFix.summaryRowOf, hcase]
    · simp [AirflowFix.summaryRowOf, hcase, hne]
  · constructor
    · simp [AirflowFix.summaryRowOf, hcase, hne]
    · simp [AirflowFix.summaryRowOf, hcase]

/-- Claim C4: on the set of summary rows it is given, the validation task
errors exactly when the set is empty or some row has a null
weather_condition, and when it succeeds it returns the rows unchanged (it
never modifies a row). -/
theorem C4_validation_contract (table : List SummaryRow) :
    ((∃ e, AirflowFix.validate_data table = Except.error e)
      ↔ (table = [] ∨ ∃ row ∈ table, row.weather_condition = none))
    ∧ (∀ t2, AirflowFix.validate_data table = Except.ok t2 → t2 = table) :=
  ⟨validate_error_iff table, fun _ h => validate_ok_eq h⟩

/-- Claim C5 (amended): when no reading survives the execution-window
filter the transform emits no row and raises no error of its own; the run
fails only at the later validation step, and only when the summary table
as a whole — prior partitions included — is empty or already has a row
with missing weather, so a run over an empty window with prior data
completes silently with zero new rows instead of failing with an
EmptyInputError. -/
theorem C5_amended_empty_window (prior : List SummaryRow) (s : List Sensor)
    (w : List Weather) (wstart wstop : Nat) (rs : List Reading)
    (hempty : filterWindow wstart wstop rs = []) :
    AirflowFix.transform_in_sql s w wstart wstop rs = []
    ∧ ((∃ e, AirflowFix.run_transform_validate prior s w wstart wstop rs = Except.error e)
        ↔ (prior = [] ∨ ∃ row ∈ prior, row.weather_condition = none)) := by
  have htr : AirflowFix.transform_in_sql s w wstart wstop rs = [] := by
    show AirflowFix.dailyRows w (joinSensors s (filterWindow wstart wstop rs)) = []
    rw [hempty]
    rfl
  refine ⟨htr, ?_⟩
  show (∃ e, AirflowFix.validate_data
      (prior ++ AirflowFix.transform_in_sql s w wstart wstop rs) = Except.error e) ↔ _
  rw [htr, List.append_nil]
  exact validate_error_iff prior

/-- Claim C6: a reading whose sensor_id has no entry in the sensor
directory contributes to no output: removing it from the input leaves the
incremental SQL transform and the pandas transform outputs unchanged, so
no partial or null-location row is emitted for it and no error is
raised. -/
theorem C6_unknown_sensor_silently_dropped (s : List Sensor) (w : List Weather)
    (wstart wstop : Nat) (rs₁ rs₂ : List Reading) (r : Reading)
    (h : lookupLocation s r.sensor_id = none) :
    AirflowFix.transform_in_sql s w wstart wstop (rs₁ ++ r :: rs₂)
      = AirflowFix.transform_in_sql s w wstart wstop (rs₁ ++ rs₂)
    ∧ AirflowEtl.transform_data s (rs₁ ++ r :: rs₂)
      = AirflowEtl.transform_data s (rs₁ ++ rs₂) := by
  constructor
  · show AirflowFix.dailyRows w (joinSensors s (filterWindow wstart wstop (rs₁ ++ r :: rs₂)))
      = AirflowFix.dailyRows w (joinSensors s (filterWindow wstart wstop (rs₁ ++ rs₂)))
    rw [joinSensors_filterWindow_drop h]
  · show (statKeys (joinSensors s (rs₁ ++ r :: rs₂))).map
        (AirflowEtl.etlRowOf (joinSensors s (rs₁ ++ r :: rs₂)))
      = (statKeys (joinSensors s (rs₁ ++ rs₂))).map
        (AirflowEtl.etlRowOf (joinSensors s (rs₁ ++ rs₂)))
    rw [joinSensors_drop h]

/-- Claim C7: every row emitted by the incremental SQL transform and by
the full-refresh SQL transform has reading_count at least 1 — rows exist
only for groups holding at least one reading. -/
theorem C7_reading_count_pos (s : List Sensor) (w : List Weather) (wstart wstop : Nat)
    (rs : List Reading) :
    (∀ row ∈ AirflowFix.transform_in_sql s w wstart wstop rs, 1 ≤ row.reading_count)
    ∧ (∀ row ∈ AirflowElt.transform_in_sql s rs, 1 ≤ row.reading_count) := by
  constructor
  · intro row hrow
    obtain ⟨k, hk, hrw⟩ := mem_dailyRows.mp hrow
    subst hrw
    show 1 ≤ (tempsOf (joinSensors s (filterWindow wstart wstop rs)) k).length
    exact List.length_pos.mpr (tempsOf_ne_nil hk)
  · intro row hrow
    obtain ⟨k, hk, hrw⟩ := mem_elt_transform.mp hrow
    subst hrw
    show 1 ≤ (tempsOf (joinSensors s rs) k).length
    exact List.length_pos.mpr (tempsOf_ne_nil hk)

/-- Claim C8 (amended): on identical inputs the SQL and pandas transforms
produce rows in matching positions with identical location, date and
reading_count, and temperature aggregates that are respectively the
half-away-from-zero and half-to-even roundings of the same exact value; in
particular the two outputs coincide whenever no aggregate is an exact
half-tie at two decimals, but differ at such ties (SQL `ROUND` vs pandas
`.round`). -/
theorem C8_amended_same_contract_up_to_rounding (s : List Sensor) (rs : List Reading) :
    (AirflowElt.transform_in_sql s rs).length = (AirflowEtl.transform_data s rs).length
    ∧ (∀ i (hi : i < (AirflowElt.transform_in_sql s rs).length)
        (hi2 : i < (AirflowEtl.transform_data s rs).length),
        ((AirflowElt.transform_in_sql s rs).get ⟨i, hi⟩).location
            = ((AirflowEtl.transform_data s rs).get ⟨i, hi2⟩).location
        ∧ ((AirflowElt.transform_in_sql s rs).get ⟨i, hi⟩).date
            = ((AirflowEtl.transform_data s rs).get ⟨i, hi2⟩).date
        ∧ ((AirflowElt.transform_in_sql s rs).get ⟨i, hi⟩).reading_count
            = ((AirflowEtl.transform_data s rs).get ⟨i, hi2⟩).reading_count
        ∧ (∃ q, ((AirflowElt.transform_in_sql s rs).get ⟨i, hi⟩).avg_temp = round2 q
            ∧ ((AirflowEtl.transform_data s rs).get ⟨i, hi2⟩).avg_temp = round2even q)
        ∧ (∃ q, ((AirflowElt.transform_in_sql s rs).get ⟨i, hi⟩).min_temp = round2 q
            ∧ ((AirflowEtl.transform_data s rs).get ⟨i, hi2⟩).min_temp = round2even q)
        ∧ (∃ q, ((AirflowElt.transform_in_sql s rs).get ⟨i, hi⟩).max_temp = round2 q
            ∧ ((AirflowEtl.transform_data s rs).get ⟨i, hi2⟩).max_temp = round2even q))
    ∧ (∀ q : ℚ, ¬ isTie q → round2 q = round2even q) := by
  refine ⟨(List.length_map _ _).trans (List.length_map _ _).symm, ?_,
    fun q hq => round2_eq_round2even hq⟩
  intro i hi hi2
  have hlen : i < (statKeys (joinSensors s rs)).length := by
    have h3 := hi
    rw [show (AirflowElt.transform_in_sql s rs).length
        = (statKeys (joinSensors s rs)).length from List.length_map _ _] at h3
    exact h3
  have g1 : (AirflowElt.transform_in_sql s rs).get ⟨i, hi⟩
      = AirflowElt.sqlRowOf (joinSensors s rs)
          ((statKeys (joinSensors s rs)).get ⟨i, hlen⟩) := by
    show ((statKeys (joinSensors s rs)).map
        (AirflowElt.sqlRowOf (joinSensors s rs))).get ⟨i, hi⟩ = _
    rw [List.get_map]
  have g2 : (AirflowEtl.transform_data s rs).get ⟨i, hi2⟩
      = AirflowEtl.etlRowOf (joinSensors s rs)
          ((statKeys (joinSensors s rs)).get ⟨i, hlen⟩) := by
    show ((statKeys (joinSensors s rs)).map
        (AirflowEtl.etlRowOf (joinSensors s rs))).get ⟨i, hi2⟩ = _
    rw [List.get_map]
  rw [g1, g2]
  exact ⟨rfl, rfl, rfl, ⟨_, rfl, rfl⟩, ⟨_, rfl, rfl⟩, ⟨_, rfl, rfl⟩⟩

/-- Claim C10: the transforms are insensitive to the order of the input
readings — permuting the readings yields the same multiset of output rows
for both the incremental SQL transform and the pandas transform. -/
theorem C10_input_order_insensitive (s : List Sensor) (w : List Weather)
    (wstart wstop : Nat) (rs₁ rs₂ : List Reading) (h : rs₁.Perm rs₂) :
    (AirflowFix.transform_in_sql s w wstart wstop rs₁).Perm
      (AirflowFix.transform_in_sql s w wstart wstop rs₂)
    ∧ (AirflowEtl.transform_data s rs₁).Perm (AirflowEtl.transform_data s rs₂) := by
  constructor
  · have hj : (joinSensors s (filterWindow wstart wstop rs₁)).Perm
        (joinSensors s (filterWindow wstart wstop rs₂)) :=
      joinSensors_perm (filterWindow_perm h)
    have hkeys := statKeys_perm hj
    show (AirflowFix.dailyRows w (joinSensors s (filterWindow wstart wstop rs₁))).Perm
      (AirflowFix.dailyRows w (joinSensors s (filterWindow wstart wstop rs₂)))
    unfold AirflowFix.dailyRows
    rw [List.map_congr_left fun k _ =>
      summaryRowOf_congr (w := w) hj hkeys (statKeys_nodup _) k]
    exact hkeys.map _
  · have hj : (joinSensors s rs₁).Perm (joinSensors s rs₂) := joinSensors_perm h
    have hkeys := statKeys_perm hj
    show ((statKeys (joinSensors s rs₁)).map (AirflowEtl.etlRowOf (joinSensors s rs₁))).Perm
      ((statKeys (joinSensors s rs₂)).map (AirflowEtl.etlRowOf (joinSensors s rs₂)))
    rw [List.map_congr_left fun k _ => etlRowOf_congr hj k]
    exact hkeys.map _

/-! Concrete runs used by the witnesses and counterexamples.  Day 0 stands
for 2024-01-01; timestamps are seconds into that day. -/

lemma aggMean_single (q : ℚ) : aggMean [q] = q := by
  norm_num [aggMean, aggSum]

lemma aggMean_pair (a b : ℚ) : aggMean [a, b] = (a + b) / 2 := by
  norm_num [aggMean, aggSum]

lemma aggMin_single (q : ℚ) : aggMin [q] = q := rfl

lemma aggMax_single (q : ℚ) : aggMax [q] = q := rfl

/-- The spec example's sensor directory: S1 (id 1) at Loc1. -/
def exSensors : List Sensor := [⟨1, "Loc1"⟩]

/-- The spec example's weather reference: (Loc1, 2024-01-01) → (Sunny, 24.0). -/
def exWeather : List Weather := [⟨0, "Loc1", "Sunny", 24⟩]

/-- The spec example's readings: (S1, 2024-01-01T10:00, 20.0) and
(S1, 2024-01-01T14:00, 30.0). -/
def exReadings : List Reading := [⟨1, 1, 20, 36000⟩, ⟨2, 1, 30, 50400⟩]

/-- The spec example's readings in the opposite order. -/
def exReadingsSwapped : List Reading := [⟨2, 1, 30, 50400⟩, ⟨1, 1, 20, 36000⟩]

/-- The row the spec example expects: (Loc1, 2024-01-01, avg 25.0, min 20.0,
max 30.0, moving 25.0, count 2, Sunny, 24.0, ABNORMAL). -/
def exRow : SummaryRow :=
  ⟨"Loc1", 0, 25, 20, 30, 25, 2, some "Sunny", some 24, "ABNORMAL"⟩

lemma round2_of_25 : round2 25 = 25 := by
  rw [round2, roundAway]
  norm_num

lemma round2_of_20 : round2 20 = 20 := by
  rw [round2, roundAway]
  norm_num

lemma round2_of_30 : round2 30 = 30 := by
  rw [round2, roundAway]
  norm_num

lemma exTemps_eval :
    tempsOf (joinSensors exSensors (filterWindow 0 86400 exReadings)) ("Loc1", 0)
      = [20, 30] := rfl

lemma exAggMean : aggMean [(20 : ℚ), 30] = 25 := by
  rw [aggMean_pair]
  norm_num

lemma exAggMin : aggMin [(20 : ℚ), 30] = 20 := by
  norm_num [aggMin, List.insertionSort, List.orderedInsert]

lemma exAggMax : aggMax [(20 : ℚ), 30] = 30 := by
  norm_num [aggMax, geQ, List.insertionSort, List.orderedInsert]

lemma exTransform_eval :
    AirflowFix.transform_in_sql exSensors exWeather 0 86400 exReadings = [exRow] := by
  have hkeys : statKeys (joinSensors exSensors (filterWindow 0 86400 exReadings))
      = [("Loc1", 0)] := rfl
  show AirflowFix.dailyRows exWeather
      (joinSensors exSensors (filterWindow 0 86400 exReadings)) = [exRow]
  unfold AirflowFix.dailyRows
  rw [hkeys]
  simp only [List.map]
  congr 1
  unfold AirflowFix.summaryRowOf exRow
  rw [SummaryRow.mk.injEq]
  refine ⟨rfl, rfl, ?_, ?_, ?_, ?_, rfl, rfl, rfl, ?_⟩
  · rw [exTemps_eval, exAggMean, round2_of_25]
  · rw [exTemps_eval, exAggMin, round2_of_20]
  · rw [exTemps_eval, exAggMax, round2_of_30]
  · rw [show (windowKeys [("Loc1", 0)] ("Loc1", 0)).map
        (exactAvg (joinSensors exSensors (filterWindow 0 86400 exReadings)))
        = [aggMean [(20 : ℚ), 30]] from rfl]
    rw [exAggMean, aggMean_single, round2_of_25]
  · rw [exTemps_eval, exAggMax, round2_of_30]
    rw [if_pos (by norm_num : (25 : ℚ) < 30)]

/-- Witness for C1: on the spec's example run the transform emits exactly
the expected row (Loc1, day 0, avg 25.0, min 20.0, max 30.0, count 2), its
group is nonempty and its reading_count is the group size. -/
theorem C1_witness :
    AirflowFix.transform_in_sql exSensors exWeather 0 86400 exReadings = [exRow]
    ∧ tempsOf (joinSensors exSensors (filterWindow 0 86400 exReadings))
        (exRow.location, exRow.date) ≠ []
    ∧ exRow.reading_count
        = (tempsOf (joinSensors exSensors (filterWindow 0 86400 exReadings))
            (exRow.location, exRow.date)).length := by
  have h := C1_one_row_per_group_with_aggregates exSensors exWeather 0 86400 exReadings exRow
    (by rw [exTransform_eval]; exact List.mem_singleton_self _)
  exact ⟨exTransform_eval, h.2.2.1, h.2.2.2.1⟩

/-- The row the full-refresh SQL transform emits on the spec example. -/
def exEltRow : EtlRow := ⟨"Loc1", 0, 25, 20, 30, 2⟩

lemma exEltTransform_eval :
    AirflowElt.transform_in_sql exSensors exReadings = [exEltRow] := by
  have hkeys : statKeys (joinSensors exSensors exReadings) = [("Loc1", 0)] := rfl
  unfold AirflowElt.transform_in_sql
  rw [hkeys]
  simp only [List.map]
  congr 1
  have ht : tempsOf (joinSensors exSensors exReadings) ("Loc1", 0) = [20, 30] := rfl
  unfold AirflowElt.sqlRowOf exEltRow
  rw [EtlRow.mk.injEq]
  refine ⟨rfl, rfl, ?_, ?_, ?_, rfl⟩
  · rw [ht, exAggMean, round2_of_25]
  · rw [ht, exAggMin, round2_of_20]
  · rw [ht, exAggMax, round2_of_30]

/-- Witness for C7: the rows emitted on the spec example by the
incremental and the full-refresh transforms have reading_count ≥ 1. -/
theorem C7_witness : 1 ≤ exRow.reading_count ∧ 1 ≤ exEltRow.reading_count := by
  refine ⟨(C7_reading_count_pos exSensors exWeather 0 86400 exReadings).1 exRow ?_,
    (C7_reading_count_pos exSensors exWeather 0 86400 exReadings).2 exEltRow ?_⟩
  · rw [exTransform_eval]
    exact List.mem_singleton_self _
  · rw [exEltTransform_eval]
    exact List.mem_singleton_self _

/-- Boundary run for C3: location A has max_temp exactly 25.00, location B
has max_temp 25.01. -/
def bSensors : List Sensor := [⟨1, "A"⟩, ⟨2, "B"⟩]

/-- Readings for the boundary run: one of 25.00 at A, one of 25.01 at B. -/
def bReadings : List Reading := [⟨1, 1, 25, 0⟩, ⟨2, 2, 2501 / 100, 3600⟩]

/-- Expected boundary row for location A (exactly 25.00 → NORMAL). -/
def bRowA : SummaryRow := ⟨"A", 0, 25, 25, 25, 25, 1, none, none, "NORMAL"⟩

/-- Expected boundary row for location B (25.01 → ABNORMAL). -/
def bRowB : SummaryRow :=
  ⟨"B", 0, 2501 / 100, 2501 / 100, 2501 / 100, 2501 / 100, 1, none, none, "ABNORMAL"⟩

lemma round2_of_2501 : round2 (2501 / 100) = 2501 / 100 := by
  rw [round2, roundAway]
  norm_num

lemma bTransform_eval :
    AirflowFix.transform_in_sql bSensors [] 0 86400 bReadings = [bRowA, bRowB] := by
  have hkeys : statKeys (joinSensors bSensors (filterWindow 0 86400 bReadings))
      = [("A", 0), ("B", 0)] := rfl
  show AirflowFix.dailyRows [] (joinSensors bSensors (filterWindow 0 86400 bReadings)) = _
  unfold AirflowFix.dailyRows
  rw [hkeys]
  simp only [List.map]
  have htA : tempsOf (joinSensors bSensors (filterWindow 0 86400 bReadings)) ("A", 0)
      = [25] := rfl
  have htB : tempsOf (joinSensors bSensors (filterWindow 0 86400 bReadings)) ("B", 0)
      = [2501 / 100] := rfl
  congr 1
  · unfold AirflowFix.summaryRowOf bRowA
    rw [SummaryRow.mk.injEq]
    refine ⟨rfl, rfl, ?_, ?_, ?_, ?_, rfl, rfl, rfl, ?_⟩
    · rw [htA, aggMean_single, round2_of_25]
    · rw [htA, aggMin_single, round2_of_25]
    · rw [htA, aggMax_single, round2_of_25]
    · rw [show (windowKeys [("A", 0), ("B", 0)] ("A", 0)).map
          (exactAvg (joinSensors bSensors (filterWindow 0 86400 bReadings)))
          = [aggMean [(25 : ℚ)]] from rfl]
      rw [aggMean_single, aggMean_single, round2_of_25]
    · rw [htA, aggMax_single, round2_of_25, if_neg (by norm_num : ¬ (25 : ℚ) < 25)]
  congr 1
  unfold AirflowFix.summaryRowOf bRowB
  rw [SummaryRow.mk.injEq]
  refine ⟨rfl, rfl, ?_, ?_, ?_, ?_, rfl, rfl, rfl, ?_⟩
  · rw [htB, aggMean_single, round2_of_2501]
  · rw [htB, aggMin_single, round2_of_2501]
  · rw [htB, aggMax_single, round2_of_2501]
  · rw [show (windowKeys [("A", 0), ("B", 0)] ("B", 0)).map
        (exactAvg (joinSensors bSensors (filterWindow 0 86400 bReadings)))
        = [aggMean [(2501 / 100 : ℚ)]] from rfl]
    rw [aggMean_single, aggMean_single, round2_of_2501]
  · rw [htB, aggMax_single, round2_of_2501, if_pos (by norm_num : (25 : ℚ) < 2501 / 100)]

/-- Witness for C3: in the boundary run, the group with max exactly 25.00
comes out NORMAL and the group with 25.01 comes out ABNORMAL, matching the
general characterisation. -/
theorem C3_witness :
    AirflowFix.transform_in_sql bSensors [] 0 86400 bReadings = [bRowA, bRowB]
    ∧ bRowA.max_temp = 25 ∧ bRowA.quality_flag = "NORMAL"
    ∧ bRowB.max_temp = 2501 / 100 ∧ bRowB.quality_flag = "ABNORMAL"
    ∧ (bRowA.quality_flag = "ABNORMAL" ↔ 25 < bRowA.max_temp)
    ∧ (bRowB.quality_flag = "ABNORMAL" ↔ 25 < bRowB.max_temp) := by
  refine ⟨bTransform_eval, rfl, rfl, rfl, rfl, ?_, ?_⟩
  · exact (C3_quality_flag bSensors [] 0 86400 bReadings bRowA
      (by rw [bTransform_eval]; exact List.mem_cons_self _ _)).1
  · exact (C3_quality_flag bSensors [] 0 86400 bReadings bRowB
      (by rw [bTransform_eval]; exact List.mem_cons_of_mem _ (List.mem_singleton_self _))).1

/-- Witness for C4: the empty table fails validation; a table whose one
row has weather data passes and is returned unchanged. -/
theorem C4_witness :
    (∃ e, AirflowFix.validate_data ([] : List SummaryRow) = Except.error e)
    ∧ AirflowFix.validate_data [exRow] = Except.ok [exRow]
    ∧ ([exRow] : List SummaryRow) = [exRow] := by
  exact ⟨(C4_validation_contract ([] : List SummaryRow)).1.mpr (Or.inl rfl), rfl,
    (C4_validation_contract [exRow]).2 [exRow] rfl⟩

/-- Counterexample for C5: with a prior summary row present and an empty
execution window, the transform emits nothing and the run completes with
Except.ok — no EmptyInputError is raised, the run silently finishes with
zero new rows. -/
theorem C5_counterexample :
    filterWindow 0 86400 ([] : List Reading) = []
    ∧ AirflowFix.transform_in_sql exSensors exWeather 0 86400 [] = []
    ∧ AirflowFix.run_transform_validate [exRow] exSensors exWeather 0 86400 []
        = Except.ok [exRow] :=
  ⟨rfl, rfl, rfl⟩

/-- Witness for C5 (amended): on a first run (no prior rows) over an empty
window, the transform emits nothing and the validation step fails. -/
theorem C5_amended_witness :
    AirflowFix.transform_in_sql exSensors exWeather 0 86400 [] = []
    ∧ ((∃ e, AirflowFix.run_transform_validate [] exSensors exWeather 0 86400 []
          = Except.error e)
        ↔ (([] : List SummaryRow) = []
            ∨ ∃ row ∈ ([] : List SummaryRow), row.weather_condition = none)) :=
  C5_amended_empty_window [] exSensors exWeather 0 86400 [] rfl

/-- A reading whose sensor id (2) has no entry in the example directory. -/
def ghostReading : Reading := ⟨99, 2, 50, 40000⟩

/-- Witness for C6: appending the unknown-sensor reading to the example
run changes neither transform's output. -/
theorem C6_witness :
    lookupLocation exSensors ghostReading.sensor_id = none
    ∧ AirflowFix.transform_in_sql exSensors exWeather 0 86400
        (exReadings ++ ghostReading :: [])
      = AirflowFix.transform_in_sql exSensors exWeather 0 86400 (exReadings ++ [])
    ∧ AirflowEtl.transform_data exSensors (exReadings ++ ghostReading :: [])
      = AirflowEtl.transform_data exSensors (exReadings ++ []) := by
  have h := C6_unknown_sensor_silently_dropped exSensors exWeather 0 86400 exReadings []
    ghostReading rfl
  exact ⟨rfl, h.1, h.2⟩

/-- Witness for C10: swapping the two example readings leaves both
transform outputs the same up to permutation. -/
theorem C10_witness :
    (AirflowFix.transform_in_sql exSensors exWeather 0 86400 exReadings).Perm
      (AirflowFix.transform_in_sql exSensors exWeather 0 86400 exReadingsSwapped)
    ∧ (AirflowEtl.transform_data exSensors exReadings).Perm
      (AirflowEtl.transform_data exSensors exReadingsSwapped) :=
  C10_input_order_insensitive exSensors exWeather 0 86400 exReadings exReadingsSwapped
    (List.Perm.swap _ _ _)

/-- Sensors for the moving-average counterexample run. -/
def cSensors : List Sensor := [⟨1, "Loc1"⟩]

/-- Readings for the moving-average counterexample: day 0 has 20.00 and
20.01 (exact mean 20.005, rounds to 20.01), day 1 has 20.00. -/
def cReadings : List Reading :=
  [⟨1, 1, 20, 0⟩, ⟨2, 1, 2001 / 100, 3600⟩, ⟨3, 1, 20, 86400⟩]

/-- Emitted row for day 0 of the counterexample run. -/
def cRow0 : SummaryRow :=
  ⟨"Loc1", 0, 2001 / 100, 20, 2001 / 100, 2001 / 100, 2, none, none, "NORMAL"⟩

/-- Emitted row for day 1 of the counterexample run: its moving average is
round2((20.005 + 20)/2) = 20.00, computed from the unrounded day-0 mean. -/
def cRow1 : SummaryRow := ⟨"Loc1", 1, 20, 20, 20, 20, 1, none, none, "NORMAL"⟩

lemma round2_of_2001 : round2 (2001 / 100) = 2001 / 100 := by
  rw [round2, roundAway]
  norm_num

lemma cAggMean0 : aggMean [(20 : ℚ), 2001 / 100] = 4001 / 200 := by
  rw [aggMean_pair]
  norm_num

lemma cAggMin0 : aggMin [(20 : ℚ), 2001 / 100] = 20 := by
  norm_num [aggMin, List.insertionSort, List.orderedInsert]

lemma cAggMax0 : aggMax [(20 : ℚ), 2001 / 100] = 2001 / 100 := by
  norm_num [aggMax, geQ, List.insertionSort, List.orderedInsert]

lemma cRound2_avg0 : round2 (4001 / 200) = 2001 / 100 := by
  rw [round2, roundAway]
  norm_num

lemma cTransform_eval :
    AirflowFix.transform_in_sql cSensors [] 0 172800 cReadings = [cRow0, cRow1] := by
  have hkeys : statKeys (joinSensors cSensors (filterWindow 0 172800 cReadings))
      = [("Loc1", 0), ("Loc1", 1)] := rfl
  show AirflowFix.dailyRows [] (joinSensors cSensors (filterWindow 0 172800 cReadings)) = _
  unfold AirflowFix.dailyRows
  rw [hkeys]
  simp only [List.map]
  have ht0 : tempsOf (joinSensors cSensors (filterWindow 0 172800 cReadings)) ("Loc1", 0)
      = [20, 2001 / 100] := rfl
  have ht1 : tempsOf (joinSensors cSensors (filterWindow 0 172800 cReadings)) ("Loc1", 1)
      = [20] := rfl
  congr 1
  · unfold AirflowFix.summaryRowOf cRow0
    rw [SummaryRow.mk.injEq]
    refine ⟨rfl, rfl, ?_, ?_, ?_, ?_, rfl, rfl, rfl, ?_⟩
    · rw [ht0, cAggMean0, cRound2_avg0]
    · rw [ht0, cAggMin0, round2_of_20]
    · rw [ht0, cAggMax0, round2_of_2001]
    · rw [show (windowKeys [("Loc1", 0), ("Loc1", 1)] ("Loc1", 0)).map
          (exactAvg (joinSensors cSensors (filterWindow 0 172800 cReadings)))
          = [aggMean [(20 : ℚ), 2001 / 100]] from rfl]
      rw [cAggMean0, aggMean_single, cRound2_avg0]
    · rw [ht0, cAggMax0, round2_of_2001, if_neg (by norm_num : ¬ (25 : ℚ) < 2001 / 100)]
  congr 1
  unfold AirflowFix.summaryRowOf cRow1
  rw [SummaryRow.mk.injEq]
  refine ⟨rfl, rfl, ?_, ?_, ?_, ?_, rfl, rfl, rfl, ?_⟩
  · rw [ht1, aggMean_single, round2_of_20]
  · rw [ht1, aggMin_single, round2_of_20]
  · rw [ht1, aggMax_single, round2_of_20]
  · rw [show (windowKeys [("Loc1", 0), ("Loc1", 1)] ("Loc1", 1)).map
        (exactAvg (joinSensors cSensors (filterWindow 0 172800 cReadings)))
        = [aggMean [(20 : ℚ)], aggMean [(20 : ℚ), 2001 / 100]] from rfl]
    rw [aggMean_single, cAggMean0, aggMean_pair]
    rw [round2, roundAway]
    norm_num
  · rw [ht1, aggMax_single, round2_of_20, if_neg (by norm_num : ¬ (25 : ℚ) < 20)]

/-- Counterexample for C2: in the two-day run, day 1's emitted
moving_avg_3day is 20.00, but the mean of the two rows' rounded avg_temp
values (20.01 and 20.00), rounded, is 20.01 — the code averages the
unrounded daily means, not avg_temp rounded before downstream use as the
claim states. -/
theorem C2_counterexample :
    AirflowFix.transform_in_sql cSensors [] 0 172800 cReadings = [cRow0, cRow1]
    ∧ round2 ((cRow0.avg_temp + cRow1.avg_temp) / 2) = 2001 / 100
    ∧ cRow1.moving_avg_3day = 20
    ∧ cRow1.moving_avg_3day ≠ round2 ((cRow0.avg_temp + cRow1.avg_temp) / 2) := by
  have h2 : round2 ((cRow0.avg_temp + cRow1.avg_temp) / 2) = 2001 / 100 := by
    show round2 (((2001 : ℚ) / 100 + 20) / 2) = 2001 / 100
    rw [round2, roundAway]
    norm_num
  refine ⟨cTransform_eval, h2, rfl, ?_⟩
  rw [h2]
  show (20 : ℚ) ≠ 2001 / 100
  norm_num

/-- Sensors for the four-day moving-average run. -/
def dSensors : List Sensor := [⟨1, "L"⟩]

/-- One reading per day on days 0..3 with temperatures 10, 20, 40, 80. -/
def dReadings : List Reading :=
  [⟨1, 1, 10, 0⟩, ⟨2, 1, 20, 86400⟩, ⟨3, 1, 40, 172800⟩, ⟨4, 1, 80, 259200⟩]

/-- Emitted row for day 0 (moving average over the single day: 10). -/
def dRow0 : SummaryRow := ⟨"L", 0, 10, 10, 10, 10, 1, none, none, "NORMAL"⟩

/-- Emitted row for day 1 (moving average over days 0..1: 15). -/
def dRow1 : SummaryRow := ⟨"L", 1, 20, 20, 20, 15, 1, none, none, "NORMAL"⟩

/-- Emitted row for day 2 (moving average over days 0..2: 70/3 → 23.33). -/
def dRow2 : SummaryRow := ⟨"L", 2, 40, 40, 40, 2333 / 100, 1, none, none, "ABNORMAL"⟩

/-- Emitted row for day 3 (moving average over days 1..3: 140/3 → 46.67). -/
def dRow3 : SummaryRow := ⟨"L", 3, 80, 80, 80, 4667 / 100, 1, none, none, "ABNORMAL"⟩

lemma aggMean_triple (a b c : ℚ) : aggMean [a, b, c] = (a + b + c) / 3 := by
  norm_num [aggMean, aggSum]
  ring_nf

lemma round2_of_10 : round2 10 = 10 := by
  rw [round2, roundAway]
  norm_num

lemma round2_of_40 : round2 40 = 40 := by
  rw [round2, roundAway]
  norm_num

lemma round2_of_80 : round2 80 = 80 := by
  rw [round2, roundAway]
  norm_num

lemma dTransform_eval :
    AirflowFix.transform_in_sql dSensors [] 0 345600 dReadings
      = [dRow0, dRow1, dRow2, dRow3] := by
  have hkeys : statKeys (joinSensors dSensors (filterWindow 0 345600 dReadings))
      = [("L", 0), ("L", 1), ("L", 2), ("L", 3)] := rfl
  show AirflowFix.dailyRows [] (joinSensors dSensors (filterWindow 0 345600 dReadings)) = _
  unfold AirflowFix.dailyRows
  rw [hkeys]
  simp only [List.map]
  have ht0 : tempsOf (joinSensors dSensors (filterWindow 0 345600 dReadings)) ("L", 0)
      = [10] := rfl
  have ht1 : tempsOf (joinSensors dSensors (filterWindow 0 345600 dReadings)) ("L", 1)
      = [20] := rfl
  have ht2 : tempsOf (joinSensors dSensors (filterWindow 0 345600 dReadings)) ("L", 2)
      = [40] := rfl
  have ht3 : tempsOf (joinSensors dSensors (filterWindow 0 345600 dReadings)) ("L", 3)
      = [80] := rfl
  congr 1
  · unfold AirflowFix.summaryRowOf dRow0
    rw [SummaryRow.mk.injEq]
    refine ⟨rfl, rfl, ?_, ?_, ?_, ?_, rfl, rfl, rfl, ?_⟩
    · rw [ht0, aggMean_single, round2_of_10]
    · rw [ht0, aggMin_single, round2_of_10]
    · rw [ht0, aggMax_single, round2_of_10]
    · rw [show (windowKeys [("L", 0), ("L", 1), ("L", 2), ("L", 3)] ("L", 0)).map
          (exactAvg (joinSensors dSensors (filterWindow 0 345600 dReadings)))
          = [aggMean [(10 : ℚ)]] from rfl]
      rw [aggMean_single, aggMean_single, round2_of_10]
    · rw [ht0, aggMax_single, round2_of_10, if_neg (by norm_num : ¬ (25 : ℚ) < 10)]
  congr 1
  · unfold AirflowFix.summaryRowOf dRow1
    rw [SummaryRow.mk.injEq]
    refine ⟨rfl, rfl, ?_, ?_, ?_, ?_, rfl, rfl, rfl, ?_⟩
    · rw [ht1, aggMean_single, round2_of_20]
    · rw [ht1, aggMin_single, round2_of_20]
    · rw [ht1, aggMax_single, round2_of_20]
    · rw [show (windowKeys [("L", 0), ("L", 1), ("L", 2), ("L", 3)] ("L", 1)).map
          (exactAvg (joinSensors dSensors (filterWindow 0 345600 dReadings)))
          = [aggMean [(20 : ℚ)], aggMean [(10 : ℚ)]] from rfl]
      simp only [aggMean_single]
      rw [aggMean_pair, round2, roundAway]
      norm_num
    · rw [ht1, aggMax_single, round2_of_20, if_neg (by norm_num : ¬ (25 : ℚ) < 20)]
  congr 1
  · unfold AirflowFix.summaryRowOf dRow2
    rw [SummaryRow.mk.injEq]
    refine ⟨rfl, rfl, ?_, ?_, ?_, ?_, rfl, rfl, rfl, ?_⟩
    · rw [ht2, aggMean_single, round2_of_40]
    · rw [ht2, aggMin_single, round2_of_40]
    · rw [ht2, aggMax_single, round2_of_40]
    · rw [show (windowKeys [("L", 0), ("L", 1), ("L", 2), ("L", 3)] ("L", 2)).map
          (exactAvg (joinSensors dSensors (filterWindow 0 345600 dReadings)))
          = [aggMean [(40 : ℚ)], aggMean [(20 : ℚ)], aggMean [(10 : ℚ)]] from rfl]
      simp only [aggMean_single]
      rw [aggMean_triple, round2, roundAway]
      norm_num
    · rw [ht2, aggMax_single, round2_of_40, if_pos (by norm_num : (25 : ℚ) < 40)]
  congr 1
  unfold AirflowFix.summaryRowOf dRow3
  rw [SummaryRow.mk.injEq]
  refine ⟨rfl, rfl, ?_, ?_, ?_, ?_, rfl, rfl, rfl, ?_⟩
  · rw [ht3, aggMean_single, round2_of_80]
  · rw [ht3, aggMin_single, round2_of_80]
  · rw [ht3, aggMax_single, round2_of_80]
  · rw [show (windowKeys [("L", 0), ("L", 1), ("L", 2), ("L", 3)] ("L", 3)).map
        (exactAvg (joinSensors dSensors (filterWindow 0 345600 dReadings)))
        = [aggMean [(80 : ℚ)], aggMean [(40 : ℚ)], aggMean [(20 : ℚ)]] from rfl]
    simp only [aggMean_single]
    rw [aggMean_triple, round2, roundAway]
    norm_num
  · rw [ht3, aggMax_single, round2_of_80, if_pos (by norm_num : (25 : ℚ) < 80)]

/-- Witness for C2 (amended): in the four-day run the day-2 row averages
days 0..2 (70/3 → 23.33) and the day-3 row averages days 1..3
(140/3 → 46.67), and the day-3 row satisfies the amended window equation
over the result set's key sequence. -/
theorem C2_amended_witness :
    AirflowFix.transform_in_sql dSensors [] 0 345600 dReadings
      = [dRow0, dRow1, dRow2, dRow3]
    ∧ dRow2.moving_avg_3day = 2333 / 100
    ∧ dRow3.moving_avg_3day = 4667 / 100
    ∧ dRow3.moving_avg_3day
        = round2 (aggMean ((windowKeys
            ((AirflowFix.transform_in_sql dSensors [] 0 345600 dReadings).map
              (fun r2 => (r2.location, r2.date)))
            (dRow3.location, dRow3.date)).map
            (exactAvg (joinSensors dSensors (filterWindow 0 345600 dReadings))))) := by
  refine ⟨dTransform_eval, rfl, rfl, ?_⟩
  exact C2_amended_moving_avg dSensors [] 0 345600 dReadings dRow3
    (by rw [dTransform_eval]
        exact List.mem_cons_of_mem _ (List.mem_cons_of_mem _
          (List.mem_cons_of_mem _ (List.mem_singleton_self _))))

/-- Sensors for the rounding-tie run. -/
def tSensors : List Sensor := [⟨1, "Loc1"⟩]

/-- Readings for the rounding-tie run: 20.00 and 20.25 on one day, whose
exact mean 20.125 is a half-tie at two decimals. -/
def tReadings : List Reading := [⟨1, 1, 20, 0⟩, ⟨2, 1, 81 / 4, 3600⟩]

/-- Row emitted by the SQL transform on the tie run: ROUND is half away
from zero, so avg_temp = 20.13. -/
def tSqlRow : EtlRow := ⟨"Loc1", 0, 2013 / 100, 20, 81 / 4, 2⟩

/-- Row emitted by the pandas transform on the tie run: .round(2) is half
to even, so avg_temp = 20.12. -/
def tPandasRow : EtlRow := ⟨"Loc1", 0, 2012 / 100, 20, 81 / 4, 2⟩

lemma tAggMean : aggMean [(20 : ℚ), 81 / 4] = 161 / 8 := by
  rw [aggMean_pair]
  norm_num

lemma tAggMin : aggMin [(20 : ℚ), 81 / 4] = 20 := by
  norm_num [aggMin, List.insertionSort, List.orderedInsert]

lemma tAggMax : aggMax [(20 : ℚ), 81 / 4] = 81 / 4 := by
  norm_num [aggMax, geQ, List.insertionSort, List.orderedInsert]

lemma round2_of_tie : round2 (161 / 8) = 2013 / 100 := by
  rw [round2, roundAway]
  norm_num

lemma round2even_of_tie : round2even (161 / 8) = 2012 / 100 := by
  rw [round2even, roundEven]
  norm_num

lemma round2even_of_20 : round2even 20 = 20 := by
  rw [round2even, roundEven]
  norm_num

lemma round2_of_81_4 : round2 (81 / 4) = 81 / 4 := by
  rw [round2, roundAway]
  norm_num

lemma round2even_of_81_4 : round2even (81 / 4) = 81 / 4 := by
  rw [round2even, roundEven]
  norm_num

lemma tSqlEval : AirflowElt.transform_in_sql tSensors tReadings = [tSqlRow] := by
  have hkeys : statKeys (joinSensors tSensors tReadings) = [("Loc1", 0)] := rfl
  unfold AirflowElt.transform_in_sql
  rw [hkeys]
  simp only [List.map]
  congr 1
  have ht : tempsOf (joinSensors tSensors tReadings) ("Loc1", 0) = [20, 81 / 4] := rfl
  unfold AirflowElt.sqlRowOf tSqlRow
  rw [EtlRow.mk.injEq]
  refine ⟨rfl, rfl, ?_, ?_, ?_, rfl⟩
  · rw [ht, tAggMean, round2_of_tie]
  · rw [ht, tAggMin, round2_of_20]
  · rw [ht, tAggMax, round2_of_81_4]

lemma tPandasEval : AirflowEtl.transform_data tSensors tReadings = [tPandasRow] := by
  have hkeys : statKeys (joinSensors tSensors tReadings) = [("Loc1", 0)] := rfl
  unfold AirflowEtl.transform_data
  rw [hkeys]
  simp only [List.map]
  congr 1
  have ht : tempsOf (joinSensors tSensors tReadings) ("Loc1", 0) = [20, 81 / 4] := rfl
  unfold AirflowEtl.etlRowOf tPandasRow
  rw [EtlRow.mk.injEq]
  refine ⟨rfl, rfl, ?_, ?_, ?_, rfl⟩
  · rw [ht, tAggMean, round2even_of_tie]
  · rw [ht, tAggMin, round2even_of_20]
  · rw [ht, tAggMax, round2even_of_81_4]

/-- Counterexample for C8: on the tie run the SQL transform emits
avg_temp 20.13 while the pandas transform emits 20.12, so the two outputs
are not identical. -/
theorem C8_counterexample :
    AirflowElt.transform_in_sql tSensors tReadings = [tSqlRow]
    ∧ AirflowEtl.transform_data tSensors tReadings = [tPandasRow]
    ∧ tSqlRow.avg_temp = 2013 / 100
    ∧ tPandasRow.avg_temp = 2012 / 100
    ∧ AirflowElt.transform_in_sql tSensors tReadings
        ≠ AirflowEtl.transform_data tSensors tReadings := by
  refine ⟨tSqlEval, tPandasEval, rfl, rfl, ?_⟩
  rw [tSqlEval, tPandasEval]
  intro h
  have h1 : tSqlRow = tPandasRow := (List.cons_eq_cons.mp h).1
  have h2 : (2013 : ℚ) / 100 = 2012 / 100 := congrArg EtlRow.avg_temp h1
  norm_num at h2

/-- Witness for C8 (amended): on the tie run the two outputs have the same
length, and at the non-tie value 20 the two rounding modes agree, as the
general theorem's tie-free clause states. -/
theorem C8_amended_witness :
    (AirflowElt.transform_in_sql tSensors tReadings).length
      = (AirflowEtl.transform_data tSensors tReadings).length
    ∧ ¬ isTie (20 : ℚ)
    ∧ round2 (20 : ℚ) = round2even (20 : ℚ) := by
  have h := C8_amended_same_contract_up_to_rounding tSensors tReadings
  have htie : ¬ isTie (20 : ℚ) := by
    unfold isTie
    norm_num
  exact ⟨h.1, htie, h.2.2 20 htie⟩

/-- Claim C9 (code bug): the anomaly branch builds its query inside the
`python_callable`, where Jinja is never rendered, so it compares the date
column against the literal template text; that literal is not a valid
date, the query errors on every table, and the branch never selects the
alert hook — even when the run emitted an ABNORMAL row. -/
theorem C9_alert_branch_never_fires :
    (∀ table : List SummaryRow,
      AirflowFix.check_for_anomalies table
        = Except.error "invalid input syntax for type date")
    ∧ exRow.quality_flag = "ABNORMAL"
    ∧ AirflowFix.check_for_anomalies [exRow]
        = Except.error "invalid input syntax for type date" := by
  have hparse : AirflowFix.parseDateLiteral AirflowFix.dsTemplateLiteral = none := rfl
  have hall : ∀ table : List SummaryRow,
      AirflowFix.check_for_anomalies table
        = Except.error "invalid input syntax for type date" := by
    intro table
    unfold AirflowFix.check_for_anomalies AirflowFix.anomaly_query
    rw [hparse]
  exact ⟨hall, rfl, hall [exRow]⟩
